import Mathlib

/-!
# Block-event executor of the BSC side of the swap bridge

A shallow embedding of `executor/types.go` and `executor/bsc_executor.go`:
the four topic-indexed decoders, the mappings to the canonical records, and
`BscExecutor.GetBlockAndTxEvents` with its two log queries.

Go calls that return `(value, error)` become functions into `Result`, which
also has an outcome for a run-time panic (an out-of-range slice index), since
nothing in the package recovers from one.  The chain client and the contract
ABI are values of the executor and are taken as they are: any client, any ABI.
-/

namespace BscEthSwap

/-! ## Outcomes -/

/-- Outcome of a Go call returning `(value, error)`: the value with a nil error,
a non-nil error with no value, or a run-time panic that unwinds the call. -/
inductive Result (α : Type) where
  | ok (v : α)
  | error (msg : String)
  | abort
deriving DecidableEq, Repr

/-! ## Bytes, hashes, addresses (go-ethereum `common`) -/

abbrev Byte := Fin 256

/-- `common.Hash`, a `[32]byte`. -/
structure Hash where
  bytes : List Byte
  size : bytes.length = 32
deriving DecidableEq, Repr

/-- `common.Address`, a `[20]byte`. -/
structure Address where
  bytes : List Byte
  size : bytes.length = 20
deriving DecidableEq, Repr

/-- `(Hash).Bytes()`: the 32 bytes as a slice. -/
def Hash.Bytes (h : Hash) : List Byte := h.bytes

/-- Lower-case hex digits of a byte sequence, two per byte. -/
def hexDigits (bs : List Byte) : List Char :=
  bs.flatMap fun b => [Nat.digitChar (b.val / 16), Nat.digitChar (b.val % 16)]

/-- `(Hash).Hex()`: `0x` followed by the 64 hex digits. -/
def Hash.Hex (h : Hash) : String := "0x" ++ String.mk (hexDigits h.bytes)

/-- `(Hash).String()` is `Hex()`. -/
def Hash.String (h : Hash) : String := h.Hex

/-- `common.BytesToAddress`: `SetBytes` keeps the last 20 bytes of a longer
slice and left-pads a shorter one with zeros. -/
def BytesToAddress (b : List Byte) : Address :=
  ⟨List.replicate (20 - (if b.length > 20 then b.drop (b.length - 20) else b).length) 0
      ++ (if b.length > 20 then b.drop (b.length - 20) else b), by
    split <;> simp <;> omega⟩

/-- Text returned by `(Address).String()`: the EIP-55 checksummed hex of the 20
bytes.  The letter case of each digit is a Keccak-256 function of the bytes;
the text is kept as the address it spells. -/
structure AddressText where
  ofAddress ::
  address : Address
deriving DecidableEq, Repr

/-- `(Address).String()`. -/
def Address.String (a : Address) : AddressText := AddressText.ofAddress a

/-- `(*big.Int).String()`: the decimal digits, with a leading `-` for a negative
value. -/
def bigIntString : Int → String
  | Int.ofNat n => Nat.repr n
  | Int.negSucc n => "-" ++ Nat.repr (n + 1)

/-- Go conversion `int64(x)` of a `uint64`: the value modulo 2^64 read as two's
complement. -/
def toInt64 (x : Nat) : Int :=
  if x % 2 ^ 64 < 2 ^ 63 then ((x % 2 ^ 64 : Nat) : Int) else ((x % 2 ^ 64 : Nat) : Int) - 2 ^ 64

/-! ## Logs, headers, the client and the ABI (go-ethereum) -/

/-- `types.Log`. -/
structure Log where
  Address : Address
  Topics : List Hash
  Data : List Byte
  BlockNumber : Nat
  TxHash : Hash
  TxIndex : Nat
  BlockHash : Hash
  Index : Nat
  Removed : Bool
deriving DecidableEq, Repr

/-- `types.Header`, with the fields the executor reads; `hash` is what
`header.Hash()` returns. -/
structure Header where
  hash : Hash
  ParentHash : Hash
  Number : Int
  Time : Nat
deriving DecidableEq, Repr

/-- `header.Hash()`. -/
def Header.Hash (h : Header) : Hash := h.hash

/-- `ethereum.FilterQuery`, with the fields the executor sets. -/
structure FilterQuery where
  BlockHash : Option Hash
  Topics : List (List Hash)
  Addresses : List Address
deriving DecidableEq, Repr

/-- `ethclient.Client`: the two calls the executor makes.  A call that exceeds
the deadline of its context returns an error like any other failed call. -/
structure Client where
  HeaderByNumber : Int → Except String Header
  FilterLogs : FilterQuery → Except String (List Log)

/-- `abi.ABI` as the decoders use it: `Unpack(&ev, name, data)` either returns an
error or fills the fields of `ev` named after the non-indexed arguments of event
`name`: `Amount`, `FeeAmount` of the swap-start structs, and `Name`, `Symbol`,
`Decimals` of the pair structs. -/
structure ABI where
  UnpackAmounts : String → List Byte → Except String (Int × Int)
  UnpackToken : String → List Byte → Except String (String × String × Fin 256)

/-! ## Canonical records (`model`, `common`) -/

/-- Modelled from the spec: `model.SwapStartTxLog`, whose declaration is outside
the two source files; the fields are the ones the executor assigns. -/
structure SwapStartTxLog where
  TokenAddr : AddressText
  FromAddress : AddressText
  Amount : String
  FeeAmount : String
  BlockHash : String
  TxHash : String
  Height : Int
  Chain : String
deriving DecidableEq, Repr

/-- Modelled from the spec: `model.SwapPairRegisterTxLog`, whose declaration is
outside the two source files; the fields are the ones the executor assigns. -/
structure SwapPairRegisterTxLog where
  ERC20Addr : AddressText
  Sponsor : AddressText
  Symbol : String
  Name : String
  Decimals : Int
  BlockHash : String
  TxHash : String
  Height : Int
  Chain : String
deriving DecidableEq, Repr

/-- Modelled from the spec: `model.SwapPairCreatedLog`, whose declaration is
outside the two source files; the fields are the ones the executor assigns.
`SwapPairRegisterTxHash` is a Go string built from raw bytes and is kept as its
byte sequence. -/
structure SwapPairCreatedLog where
  BEP20Addr : AddressText
  ERC20Addr : AddressText
  Symbol : String
  Name : String
  Decimals : Int
  SwapPairRegisterTxHash : List Byte
  SwapPairCreatTxHash : String
  BlockHash : String
  Height : Int
  Chain : String
deriving DecidableEq, Repr

/-- An element of the `[]interface{}` the executor returns: a pointer to one of
the two record types it appends. -/
inductive EventLog where
  | swapStart (r : SwapStartTxLog)
  | pairCreated (r : SwapPairCreatedLog)
deriving DecidableEq, Repr

/-- Modelled from the spec: `common.BlockAndEventLogs`, whose declaration is
outside the two source files. -/
structure BlockAndEventLogs where
  Height : Int
  Chain : String
  BlockHash : String
  ParentBlockHash : String
  BlockTime : Int
  Events : List EventLog
deriving DecidableEq, Repr

/-! ## `executor/types.go` -/

def SwapStartedEventName : String := "SwapStarted"

def ETH2BSCSwapStartedEventHash : Hash :=
  ⟨[0xf6, 0x03, 0x09, 0xf8, 0x65, 0xa6, 0xaa, 0x29, 0x7d, 0xa5, 0xfa, 0xc6, 0x18, 0x81, 0x36, 0xa0,
    0x2e, 0x5a, 0xcf, 0xdf, 0x6e, 0x8f, 0x6d, 0x35, 0x25, 0x7a, 0x9f, 0x4e, 0x96, 0x53, 0x17, 0x0f],
   rfl⟩

def BSC2ETHSwapStartedEventHash : Hash :=
  ⟨[0x49, 0xc0, 0x8f, 0xf1, 0x11, 0x18, 0x92, 0x2c, 0x1e, 0x82, 0x98, 0x91, 0x55, 0x31, 0xef, 0xf9,
    0xef, 0x6f, 0x8b, 0x39, 0xb4, 0x4b, 0x3e, 0x99, 0x52, 0xb7, 0x5d, 0x47, 0xe1, 0xd0, 0xcd, 0xd0],
   rfl⟩

structure ETH2BSCSwapStartedEvent where
  ERC20Addr : Address
  FromAddr : Address
  Amount : Int
  FeeAmount : Int
deriving DecidableEq, Repr

def ETH2BSCSwapStartedEvent.ToSwapStartTxLog (ev : ETH2BSCSwapStartedEvent) (log : Log) :
    SwapStartTxLog :=
  { TokenAddr := ev.ERC20Addr.String
    FromAddress := ev.FromAddr.String
    Amount := bigIntString ev.Amount
    FeeAmount := bigIntString ev.FeeAmount
    BlockHash := log.BlockHash.Hex
    TxHash := log.TxHash.String
    Height := toInt64 log.BlockNumber
    Chain := "" }

def ParseETH2BSCSwapStartEvent (abi : ABI) (log : Log) : Result ETH2BSCSwapStartedEvent :=
  match abi.UnpackAmounts SwapStartedEventName log.Data with
  | Except.error err => Result.error err
  | Except.ok (amount, feeAmount) =>
    match log.Topics[1]?, log.Topics[2]? with
    | some t1, some t2 =>
      Result.ok
        { ERC20Addr := BytesToAddress t1.Bytes
          FromAddr := BytesToAddress t2.Bytes
          Amount := amount
          FeeAmount := feeAmount }
    | _, _ => Result.abort

structure BSC2ETHSwapStartedEvent where
  BEP20Addr : Address
  ERC20Addr : Address
  FromAddr : Address
  Amount : Int
  FeeAmount : Int
deriving DecidableEq, Repr

def BSC2ETHSwapStartedEvent.ToSwapStartTxLog (ev : BSC2ETHSwapStartedEvent) (log : Log) :
    SwapStartTxLog :=
  { TokenAddr := ev.BEP20Addr.String
    FromAddress := ev.FromAddr.String
    Amount := bigIntString ev.Amount
    FeeAmount := bigIntString ev.FeeAmount
    BlockHash := log.BlockHash.Hex
    TxHash := log.TxHash.String
    Height := toInt64 log.BlockNumber
    Chain := "" }

def ParseBSC2ETHSwapStartEvent (abi : ABI) (log : Log) : Result BSC2ETHSwapStartedEvent :=
  match abi.UnpackAmounts SwapStartedEventName log.Data with
  | Except.error err => Result.error err
  | Except.ok (amount, feeAmount) =>
    match log.Topics[1]?, log.Topics[2]?, log.Topics[3]? with
    | some t1, some t2, some t3 =>
      Result.ok
        { BEP20Addr := BytesToAddress t1.Bytes
          ERC20Addr := BytesToAddress t2.Bytes
          FromAddr := BytesToAddress t3.Bytes
          Amount := amount
          FeeAmount := feeAmount }
    | _, _, _ => Result.abort

def SwapPairRegisterEventName : String := "SwapPairRegister"

def SwapPairRegisterEventHash : Hash :=
  ⟨[0xfe, 0x3b, 0xd0, 0x05, 0xe3, 0x46, 0x32, 0x3f, 0xa4, 0x52, 0xdf, 0x8c, 0xaf, 0xc2, 0x8c, 0x55,
    0xb9, 0x9e, 0x37, 0x66, 0xba, 0x87, 0x50, 0x57, 0x1d, 0x13, 0x9c, 0x6c, 0xf5, 0xbc, 0x08, 0xa0],
   rfl⟩

structure SwapPairRegisterEvent where
  Sponsor : Address
  ContractAddr : Address
  Name : String
  Symbol : String
  Decimals : Fin 256
deriving DecidableEq, Repr

def SwapPairRegisterEvent.ToSwapPairRegisterLog (ev : SwapPairRegisterEvent) (log : Log) :
    SwapPairRegisterTxLog :=
  { ERC20Addr := ev.ContractAddr.String
    Sponsor := ev.Sponsor.String
    Symbol := ev.Symbol
    Name := ev.Name
    Decimals := (ev.Decimals.val : Int)
    BlockHash := log.BlockHash.Hex
    TxHash := log.TxHash.String
    Height := toInt64 log.BlockNumber
    Chain := "" }

def ParseSwapPairRegisterEvent (abi : ABI) (log : Log) : Result SwapPairRegisterEvent :=
  match abi.UnpackToken SwapPairRegisterEventName log.Data with
  | Except.error err => Result.error err
  | Except.ok (name, symbol, decimals) =>
    match log.Topics[1]?, log.Topics[2]? with
    | some t1, some t2 =>
      Result.ok
        { Sponsor := BytesToAddress t1.Bytes
          ContractAddr := BytesToAddress t2.Bytes
          Name := name
          Symbol := symbol
          Decimals := decimals }
    | _, _ => Result.abort

def SwapPairCreatedEventName : String := "SwapPairCreated"

def SwapPairCreatedEventHash : Hash :=
  ⟨[0xcc, 0x03, 0x14, 0x76, 0x3e, 0xab, 0xce, 0xb7, 0x4c, 0xd3, 0xd3, 0x0a, 0xe7, 0x85, 0xc0, 0x9b,
    0xfe, 0x4e, 0x20, 0x4a, 0xf2, 0x08, 0x8b, 0x3b, 0xfc, 0xdb, 0xbe, 0x50, 0x82, 0x13, 0x3d, 0xb5],
   rfl⟩

/-- `EthRegisterTxHash` is `string(log.Topics[1].Bytes())`, a Go string of raw
bytes, kept as its byte sequence. -/
structure SwapPairCreatedEvent where
  EthRegisterTxHash : List Byte
  BEP20Addr : Address
  ERC20Addr : Address
  Name : String
  Symbol : String
  Decimals : Fin 256
deriving DecidableEq, Repr

def SwapPairCreatedEvent.ToSwapPairRegisterLog (ev : SwapPairCreatedEvent) (log : Log) :
    SwapPairCreatedLog :=
  { BEP20Addr := ev.BEP20Addr.String
    ERC20Addr := ev.ERC20Addr.String
    Symbol := ev.Symbol
    Name := ev.Name
    Decimals := (ev.Decimals.val : Int)
    SwapPairRegisterTxHash := ev.EthRegisterTxHash
    SwapPairCreatTxHash := log.TxHash.String
    BlockHash := log.BlockHash.Hex
    Height := toInt64 log.BlockNumber
    Chain := "" }

def ParseSwapPairCreatedEvent (abi : ABI) (log : Log) : Result SwapPairCreatedEvent :=
  match abi.UnpackToken SwapPairCreatedEventName log.Data with
  | Except.error err => Result.error err
  | Except.ok (name, symbol, decimals) =>
    match log.Topics[1]?, log.Topics[2]?, log.Topics[3]? with
    | some t1, some t2, some t3 =>
      Result.ok
        { EthRegisterTxHash := t1.Bytes
          BEP20Addr := BytesToAddress t2.Bytes
          ERC20Addr := BytesToAddress t3.Bytes
          Name := name
          Symbol := symbol
          Decimals := decimals }
    | _, _, _ => Result.abort

/-! ## `executor/bsc_executor.go` -/

/-- `BscExecutor`, with the fields the scan reads. -/
structure BscExecutor where
  Chain : String
  SwapAgentAddr : Address
  SwapAgentAbi : ABI
  Client : Client

def BscExecutor.GetChainName (e : BscExecutor) : String := e.Chain

/-- The `for _, log := range logs` loop of `GetSwapPairCreatedLogs`, with
`eventModels` as the accumulator: a decode error is logged and the log skipped;
a panic in the decoder unwinds the loop.  The decoder never returns a nil event
with a nil error, so the `event == nil` test has no case of its own. -/
def BscExecutor.swapPairCreatedLoop (e : BscExecutor) :
    List Log → List EventLog → Result (List EventLog)
  | [], eventModels => Result.ok eventModels
  | log :: rest, eventModels =>
    match ParseSwapPairCreatedEvent e.SwapAgentAbi log with
    | Result.abort => Result.abort
    | Result.error _ => e.swapPairCreatedLoop rest eventModels
    | Result.ok event =>
      e.swapPairCreatedLoop rest
        (eventModels ++ [EventLog.pairCreated { event.ToSwapPairRegisterLog log with Chain := e.Chain }])

/-- The query `GetSwapPairCreatedLogs` sends. -/
def BscExecutor.swapPairCreatedQuery (e : BscExecutor) (header : Header) : FilterQuery :=
  { BlockHash := some header.Hash
    Topics := [[SwapPairCreatedEventHash]]
    Addresses := [e.SwapAgentAddr] }

def BscExecutor.GetSwapPairCreatedLogs (e : BscExecutor) (header : Header) :
    Result (List EventLog) :=
  match e.Client.FilterLogs (e.swapPairCreatedQuery header) with
  | Except.error err => Result.error err
  | Except.ok logs => e.swapPairCreatedLoop logs []

/-- The `for _, log := range logs` loop of `GetSwapStartLogs`. -/
def BscExecutor.swapStartLoop (e : BscExecutor) :
    List Log → List EventLog → Result (List EventLog)
  | [], eventModels => Result.ok eventModels
  | log :: rest, eventModels =>
    match ParseBSC2ETHSwapStartEvent e.SwapAgentAbi log with
    | Result.abort => Result.abort
    | Result.error _ => e.swapStartLoop rest eventModels
    | Result.ok event =>
      e.swapStartLoop rest
        (eventModels ++ [EventLog.swapStart { event.ToSwapStartTxLog log with Chain := e.Chain }])

/-- The query `GetSwapStartLogs` sends. -/
def BscExecutor.swapStartQuery (e : BscExecutor) (header : Header) : FilterQuery :=
  { BlockHash := some header.Hash
    Topics := [[BSC2ETHSwapStartedEventHash]]
    Addresses := [e.SwapAgentAddr] }

def BscExecutor.GetSwapStartLogs (e : BscExecutor) (header : Header) : Result (List EventLog) :=
  match e.Client.FilterLogs (e.swapStartQuery header) with
  | Except.error err => Result.error err
  | Except.ok logs => e.swapStartLoop logs []

def BscExecutor.GetLogs (e : BscExecutor) (header : Header) : Result (List EventLog) :=
  match e.GetSwapStartLogs header with
  | Result.abort => Result.abort
  | Result.error err => Result.error err
  | Result.ok startEvs =>
    match e.GetSwapPairCreatedLogs header with
    | Result.abort => Result.abort
    | Result.error err => Result.error err
    | Result.ok pairCreatedEvs => Result.ok (([] ++ startEvs) ++ pairCreatedEvs)

def BscExecutor.GetBlockAndTxEvents (e : BscExecutor) (height : Int) : Result BlockAndEventLogs :=
  match e.Client.HeaderByNumber height with
  | Except.error err => Result.error err
  | Except.ok header =>
    match e.GetLogs header with
    | Result.abort => Result.abort
    | Result.error err => Result.error err
    | Result.ok packageLogs =>
      Result.ok
        { Height := height
          Chain := e.Chain
          BlockHash := header.Hash.String
          ParentBlockHash := header.ParentHash.String
          BlockTime := toInt64 header.Time
          Events := packageLogs }


/-! ## Concrete inputs -/

/-- Big-endian value of a byte sequence. -/
def beNat (bs : List Byte) : Nat := bs.foldl (fun acc b => acc * 256 + b.val) 0

/-- The 32-byte word at offset `i` of a payload, if the payload reaches that far. -/
def wordAt (data : List Byte) (i : Nat) : Option Nat :=
  if i + 32 ≤ data.length then some (beNat ((data.drop i).take 32)) else none

/-- The string whose length word is at offset `i` of a payload. -/
def stringAt (data : List Byte) (i : Nat) : Option String :=
  match wordAt data i with
  | none => none
  | some len =>
    if i + 32 + len ≤ data.length then
      some (String.mk (((data.drop (i + 32)).take len).map fun b => Char.ofNat b.val))
    else none

/-- An ABI with the three events of the swap agent: `SwapStarted` with payload
`(uint256 amount, uint256 feeAmount)`, and `SwapPairRegister`, `SwapPairCreated`
with payload `(string name, string symbol, uint8 decimals)`, read from the
contract encoding of the payload. -/
def agentAbi : ABI where
  UnpackAmounts name data :=
    if name = "SwapStarted" then
      match wordAt data 0, wordAt data 32 with
      | some amount, some feeAmount => Except.ok ((amount : Int), (feeAmount : Int))
      | _, _ => Except.error "abi: length insufficient"
    else Except.error "abi: could not locate named method or event"
  UnpackToken name data :=
    if name = "SwapPairRegister" ∨ name = "SwapPairCreated" then
      match wordAt data 0, wordAt data 32, wordAt data 64 with
      | some nameAt, some symbolAt, some decimals =>
        match stringAt data nameAt, stringAt data symbolAt with
        | some n, some s => Except.ok (n, s, Fin.ofNat decimals)
        | _, _ => Except.error "abi: cannot marshal in to go slice"
      | _, _, _ => Except.error "abi: length insufficient"
    else Except.error "abi: could not locate named method or event"

/-- The 32-byte big-endian word of a number. -/
def encWord (n : Nat) : List Byte :=
  (List.range 32).map fun i => Fin.ofNat (n / 256 ^ (31 - i))

/-- An ASCII string as a length word followed by its bytes, zero-padded to 32. -/
def encString (s : String) : List Byte :=
  encWord s.length ++ s.data.map (fun c => Fin.ofNat c.toNat)
    ++ List.replicate (32 - s.length) 0

/-- A topic holding a 20-byte address whose bytes all equal `b`. -/
def addressTopic (b : Byte) : Hash :=
  ⟨List.replicate 12 0 ++ List.replicate 20 b, by simp⟩

/-- A hash whose bytes all equal `b`. -/
def constHash (b : Byte) : Hash := ⟨List.replicate 32 b, by simp⟩

/-- Payload of a swap-start log: amount 10^18, fee 10^15. -/
def swapData : List Byte := encWord 1000000000000000000 ++ encWord 1000000000000000

/-- Payload of a pair log: name `Tether`, symbol `USDT`, 6 decimals. -/
def tokenData : List Byte :=
  encWord 96 ++ encWord 160 ++ encWord 6 ++ encString "Tether" ++ encString "USDT"

/-- A log with the given topics and payload, in block 100. -/
def mkLog (topics : List Hash) (data : List Byte) : Log :=
  { Address := BytesToAddress (List.replicate 20 0xaa)
    Topics := topics
    Data := data
    BlockNumber := 100
    TxHash := constHash 0x77
    TxIndex := 0
    BlockHash := constHash 0x55
    Index := 0
    Removed := false }

/-- A well-formed direction-B swap-start log. -/
def swapLog : Log :=
  mkLog [BSC2ETHSwapStartedEventHash, addressTopic 0xb1, addressTopic 0xe2, addressTopic 0xf3]
    swapData

/-- A swap-start log with three topics: the sender slot is missing. -/
def shortSwapLog : Log :=
  mkLog [BSC2ETHSwapStartedEventHash, addressTopic 0xb1, addressTopic 0xe2] swapData

/-- A well-formed pair-created log. -/
def pairLog : Log :=
  mkLog [SwapPairCreatedEventHash, constHash 0x99, addressTopic 0xb1, addressTopic 0xe2] tokenData

/-- A pair-created log with three topics. -/
def shortPairLog : Log :=
  mkLog [SwapPairCreatedEventHash, constHash 0x99, addressTopic 0xb1] tokenData

/-- The header the concrete client serves. -/
def demoHeader : Header :=
  { hash := constHash 0x55, ParentHash := constHash 0x54, Number := 7, Time := 1600000000 }

/-- A client serving `demoHeader` at every height and the given logs for the
swap-start and the pair-created query. -/
def demoClient (startLogs pairLogs : Except String (List Log)) : Client where
  HeaderByNumber _ := Except.ok demoHeader
  FilterLogs q :=
    if q.Topics = [[BSC2ETHSwapStartedEventHash]] then startLogs
    else if q.Topics = [[SwapPairCreatedEventHash]] then pairLogs
    else Except.ok []

/-- A BSC executor over `demoClient`. -/
def demoExecutor (startLogs pairLogs : Except String (List Log)) : BscExecutor :=
  { Chain := "BSC"
    SwapAgentAddr := BytesToAddress (List.replicate 20 0xaa)
    SwapAgentAbi := agentAbi
    Client := demoClient startLogs pairLogs }

/-- A direction-A swap-start log with two topics: the sender slot is missing. -/
def shortEthSwapLog : Log :=
  mkLog [ETH2BSCSwapStartedEventHash, addressTopic 0xe2] swapData

/-- A pair-register log with two topics: the contract slot is missing. -/
def shortRegisterLog : Log :=
  mkLog [SwapPairRegisterEventHash, addressTopic 0xc4] tokenData

/-- A log with the pair-created signature in topic 0, four topics, and a payload
of two words. -/
def foreignSignatureLog : Log :=
  mkLog [SwapPairCreatedEventHash, addressTopic 0xb1, addressTopic 0xe2, addressTopic 0xf3]
    swapData

/-- The swap-start log `swapLog`, reported in block 2^63. -/
def highBlockLog : Log := { swapLog with BlockNumber := 9223372036854775808 }

/-! ## Reading a decimal string back -/

/-- Value of a non-empty run of decimal digits. -/
def parseDigits (cs : List Char) : Option Nat :=
  if cs ≠ [] ∧ cs.all Char.isDigit = true then
    some (cs.foldl (fun n c => n * 10 + (c.toNat - 48)) 0)
  else none

/-- Modelled from the spec: the parsing half of the round trip on the canonical
decimal string of an amount or fee; the consumers that read `Amount` and
`FeeAmount` back are outside the two source files.  An optional sign followed by
one or more decimal digits is read as an integer of any size; any other string
has no value. -/
def parseBigInt (s : String) : Option Int :=
  match s.data with
  | [] => none
  | c :: cs =>
    if c = '-' then (parseDigits cs).map fun n => -(n : Int)
    else if c = '+' then (parseDigits cs).map fun n => (n : Int)
    else (parseDigits (c :: cs)).map fun n => (n : Int)

/-! ## What the loops append -/

/-- The element the loop of `GetSwapStartLogs` appends for a log: the record of
the decoded event, stamped with the executor's chain; nothing when the decoder
returns no event. -/
def BscExecutor.swapStartRecord (e : BscExecutor) (log : Log) : Option EventLog :=
  match ParseBSC2ETHSwapStartEvent e.SwapAgentAbi log with
  | Result.ok event =>
    some (EventLog.swapStart { event.ToSwapStartTxLog log with Chain := e.Chain })
  | _ => none

/-- The element the loop of `GetSwapPairCreatedLogs` appends for a log. -/
def BscExecutor.swapPairCreatedRecord (e : BscExecutor) (log : Log) : Option EventLog :=
  match ParseSwapPairCreatedEvent e.SwapAgentAbi log with
  | Result.ok event =>
    some (EventLog.pairCreated { event.ToSwapPairRegisterLog log with Chain := e.Chain })
  | _ => none

/-! ## Lemmas -/

set_option maxRecDepth 100000

theorem digitChar_decimal (d : Nat) (h : d < 10) :
    (Nat.digitChar d).isDigit = true ∧ (Nat.digitChar d).toNat - 48 = d := by
  interval_cases d <;> exact ⟨rfl, rfl⟩

theorem toDigitsCore_decimal (fuel : Nat) :
    ∀ (n : Nat) (ds : List Char), n < fuel → (∀ c ∈ ds, c.isDigit = true) →
      (∀ c ∈ Nat.toDigitsCore 10 fuel n ds, c.isDigit = true) ∧
      Nat.toDigitsCore 10 fuel n ds ≠ [] ∧
      (Nat.toDigitsCore 10 fuel n ds).foldl (fun n c => n * 10 + (c.toNat - 48)) 0
        = ds.foldl (fun n c => n * 10 + (c.toNat - 48)) n := by
  induction fuel with
  | zero => intro n ds h; omega
  | succ fuel ih =>
    intro n ds hn hds
    have hd := digitChar_decimal (n % 10) (Nat.mod_lt _ (by decide))
    have hds2 : ∀ c ∈ Nat.digitChar (n % 10) :: ds, c.isDigit = true := by
      intro c hc
      rcases List.mem_cons.mp hc with rfl | hc
      · exact hd.1
      · exact hds c hc
    unfold Nat.toDigitsCore
    by_cases h0 : n / 10 = 0
    · simp only [h0, if_true]
      refine ⟨hds2, by simp, ?_⟩
      rw [List.foldl_cons, hd.2]
      congr 1
      omega
    · simp only [h0, if_false]
      have hlt : n / 10 < fuel := by omega
      obtain ⟨h1, h2, h3⟩ := ih (n / 10) _ hlt hds2
      refine ⟨h1, h2, ?_⟩
      rw [h3, List.foldl_cons, hd.2]
      congr 1
      omega

theorem parseDigits_toDigits (n : Nat) : parseDigits (Nat.toDigits 10 n) = some n := by
  obtain ⟨h1, h2, h3⟩ := toDigitsCore_decimal (n + 1) n [] (Nat.lt_succ_self n) (by simp)
  unfold parseDigits Nat.toDigits
  rw [if_pos ⟨h2, List.all_eq_true.mpr h1⟩, h3]
  rfl

theorem parseBigInt_repr (n : Nat) : parseBigInt (Nat.repr n) = some (n : Int) := by
  obtain ⟨h1, h2, _⟩ := toDigitsCore_decimal (n + 1) n [] (Nat.lt_succ_self n) (by simp)
  have hp := parseDigits_toDigits n
  unfold parseBigInt
  have hdata : (Nat.repr n).data = Nat.toDigits 10 n := rfl
  rw [hdata]
  unfold Nat.toDigits at hp ⊢
  cases hl : Nat.toDigitsCore 10 (n + 1) n [] with
  | nil => exact absurd hl h2
  | cons c cs =>
    rw [hl] at hp h1
    have hc : c.isDigit = true := h1 c (List.mem_cons_self _ _)
    have hm : c ≠ '-' := by rintro rfl; exact absurd hc (by decide)
    have hpl : c ≠ '+' := by rintro rfl; exact absurd hc (by decide)
    simp [hm, hpl, hp]

theorem swapStartLoop_ok (e : BscExecutor) :
    ∀ (logs : List Log) (acc res : List EventLog),
      e.swapStartLoop logs acc = Result.ok res →
        res = acc ++ logs.filterMap e.swapStartRecord := by
  intro logs
  induction logs with
  | nil =>
    intro acc res h
    simp only [BscExecutor.swapStartLoop, Result.ok.injEq] at h
    simp [h]
  | cons log rest ih =>
    intro acc res h
    unfold BscExecutor.swapStartLoop at h
    cases hp : ParseBSC2ETHSwapStartEvent e.SwapAgentAbi log with
    | abort => rw [hp] at h; cases h
    | error msg =>
      rw [hp] at h
      rw [ih _ _ h]
      simp [List.filterMap_cons, BscExecutor.swapStartRecord, hp]
    | ok event =>
      rw [hp] at h
      rw [ih _ _ h]
      simp [List.filterMap_cons, BscExecutor.swapStartRecord, hp]

theorem swapPairCreatedLoop_ok (e : BscExecutor) :
    ∀ (logs : List Log) (acc res : List EventLog),
      e.swapPairCreatedLoop logs acc = Result.ok res →
        res = acc ++ logs.filterMap e.swapPairCreatedRecord := by
  intro logs
  induction logs with
  | nil =>
    intro acc res h
    simp only [BscExecutor.swapPairCreatedLoop, Result.ok.injEq] at h
    simp [h]
  | cons log rest ih =>
    intro acc res h
    unfold BscExecutor.swapPairCreatedLoop at h
    cases hp : ParseSwapPairCreatedEvent e.SwapAgentAbi log with
    | abort => rw [hp] at h; cases h
    | error msg =>
      rw [hp] at h
      rw [ih _ _ h]
      simp [List.filterMap_cons, BscExecutor.swapPairCreatedRecord, hp]
    | ok event =>
      rw [hp] at h
      rw [ih _ _ h]
      simp [List.filterMap_cons, BscExecutor.swapPairCreatedRecord, hp]

theorem GetSwapStartLogs_ok_inv (e : BscExecutor) (header : Header) (evs : List EventLog)
    (h : e.GetSwapStartLogs header = Result.ok evs) :
    ∃ logs, e.Client.FilterLogs (e.swapStartQuery header) = Except.ok logs ∧
      e.swapStartLoop logs [] = Result.ok evs := by
  unfold BscExecutor.GetSwapStartLogs at h
  cases hq : e.Client.FilterLogs (e.swapStartQuery header) with
  | error err => rw [hq] at h; cases h
  | ok logs => rw [hq] at h; exact ⟨logs, rfl, h⟩

theorem GetSwapPairCreatedLogs_ok_inv (e : BscExecutor) (header : Header) (evs : List EventLog)
    (h : e.GetSwapPairCreatedLogs header = Result.ok evs) :
    ∃ logs, e.Client.FilterLogs (e.swapPairCreatedQuery header) = Except.ok logs ∧
      e.swapPairCreatedLoop logs [] = Result.ok evs := by
  unfold BscExecutor.GetSwapPairCreatedLogs at h
  cases hq : e.Client.FilterLogs (e.swapPairCreatedQuery header) with
  | error err => rw [hq] at h; cases h
  | ok logs => rw [hq] at h; exact ⟨logs, rfl, h⟩

theorem GetLogs_ok_inv (e : BscExecutor) (header : Header) (evs : List EventLog)
    (h : e.GetLogs header = Result.ok evs) :
    ∃ startEvs pairCreatedEvs, e.GetSwapStartLogs header = Result.ok startEvs ∧
      e.GetSwapPairCreatedLogs header = Result.ok pairCreatedEvs ∧
      evs = startEvs ++ pairCreatedEvs := by
  unfold BscExecutor.GetLogs at h
  cases hs : e.GetSwapStartLogs header with
  | abort => rw [hs] at h; cases h
  | error err => rw [hs] at h; cases h
  | ok startEvs =>
    rw [hs] at h
    cases hp : e.GetSwapPairCreatedLogs header with
    | abort => rw [hp] at h; cases h
    | error err => rw [hp] at h; cases h
    | ok pairCreatedEvs =>
      rw [hp] at h
      simp only [List.nil_append, Result.ok.injEq] at h
      exact ⟨startEvs, pairCreatedEvs, rfl, rfl, h.symm⟩

theorem GetBlockAndTxEvents_ok_inv (e : BscExecutor) (height : Int) (r : BlockAndEventLogs)
    (h : e.GetBlockAndTxEvents height = Result.ok r) :
    ∃ header evs, e.Client.HeaderByNumber height = Except.ok header ∧
      e.GetLogs header = Result.ok evs ∧
      r = { Height := height
            Chain := e.Chain
            BlockHash := header.Hash.String
            ParentBlockHash := header.ParentHash.String
            BlockTime := toInt64 header.Time
            Events := evs } := by
  unfold BscExecutor.GetBlockAndTxEvents at h
  cases hh : e.Client.HeaderByNumber height with
  | error err => rw [hh] at h; cases h
  | ok header =>
    rw [hh] at h
    simp only at h
    cases hl : e.GetLogs header with
    | abort => rw [hl] at h; cases h
    | error err => rw [hl] at h; cases h
    | ok evs =>
      rw [hl] at h
      simp only [Result.ok.injEq] at h
      exact ⟨header, evs, rfl, hl, h.symm⟩

/-- Every value `GetBlockAndTxEvents` returns carries the executor's chain and
the height it was asked for. -/
theorem GetBlockAndTxEvents_ok_stamp (e : BscExecutor) (height : Int) (r : BlockAndEventLogs)
    (h : e.GetBlockAndTxEvents height = Result.ok r) :
    r.Chain = e.GetChainName ∧ r.Height = height := by
  obtain ⟨header, evs, _, _, hr⟩ := GetBlockAndTxEvents_ok_inv e height r h
  subst hr
  exact ⟨rfl, rfl⟩

/-- A block for which both queries return no logs gives a result with an empty
event sequence. -/
theorem GetBlockAndTxEvents_no_logs (e : BscExecutor) (height : Int) (header : Header)
    (hh : e.Client.HeaderByNumber height = Except.ok header)
    (hs : e.Client.FilterLogs (e.swapStartQuery header) = Except.ok [])
    (hp : e.Client.FilterLogs (e.swapPairCreatedQuery header) = Except.ok []) :
    ∃ r, e.GetBlockAndTxEvents height = Result.ok r ∧ r.Events = [] := by
  simp [BscExecutor.GetBlockAndTxEvents, hh, BscExecutor.GetLogs, BscExecutor.GetSwapStartLogs,
    hs, BscExecutor.swapStartLoop, BscExecutor.GetSwapPairCreatedLogs, hp,
    BscExecutor.swapPairCreatedLoop]

theorem toInt64_of_lt (x : Nat) (h : x < 2 ^ 63) : toInt64 x = (x : Int) := by
  have hm : x % 2 ^ 64 = x := Nat.mod_eq_of_lt (by omega)
  unfold toInt64
  rw [hm, if_pos h]

/-! ## The claims -/

/-- C1 (the code departs from the claim): the header fetch and both log queries
succeed, the swap-start query returns one well-formed log followed by a log with
three topics whose payload unpacks, and `GetBlockAndTxEvents` returns neither a
result with one record nor an error: reading `log.Topics[3]` in
`ParseBSC2ETHSwapStartEvent` panics and the panic unwinds the scan. -/
theorem C1_short_topic_log_aborts_scan :
    (demoExecutor (Except.ok [swapLog, shortSwapLog]) (Except.ok [])).Client.HeaderByNumber 100
        = Except.ok demoHeader ∧
      (demoExecutor (Except.ok [swapLog, shortSwapLog]) (Except.ok [])).Client.FilterLogs
          ((demoExecutor (Except.ok [swapLog, shortSwapLog]) (Except.ok [])).swapStartQuery
            demoHeader) = Except.ok [swapLog, shortSwapLog] ∧
      (demoExecutor (Except.ok [swapLog, shortSwapLog]) (Except.ok [])).Client.FilterLogs
          ((demoExecutor (Except.ok [swapLog, shortSwapLog]) (Except.ok [])).swapPairCreatedQuery
            demoHeader) = Except.ok [] ∧
      shortSwapLog.Topics.length = 3 ∧
      (demoExecutor (Except.ok [swapLog, shortSwapLog]) (Except.ok [])).GetBlockAndTxEvents 100
        = Result.abort :=
  ⟨rfl, rfl, rfl, rfl, rfl⟩

/-- C2: when the header fetch returns an error, or the swap-start query returns
an error, or the pair-created query returns an error after the swap-start stage
has produced its records, `GetBlockAndTxEvents` returns that error and no
`BlockAndEventLogs` value. -/
theorem C2_fetch_or_query_failure_fails_scan (e : BscExecutor) (height : Int) (err : String) :
    (e.Client.HeaderByNumber height = Except.error err →
      e.GetBlockAndTxEvents height = Result.error err) ∧
    (∀ header, e.Client.HeaderByNumber height = Except.ok header →
      e.Client.FilterLogs (e.swapStartQuery header) = Except.error err →
      e.GetBlockAndTxEvents height = Result.error err) ∧
    (∀ header startEvs, e.Client.HeaderByNumber height = Except.ok header →
      e.GetSwapStartLogs header = Result.ok startEvs →
      e.Client.FilterLogs (e.swapPairCreatedQuery header) = Except.error err →
      e.GetBlockAndTxEvents height = Result.error err) := by
  refine ⟨?_, ?_, ?_⟩
  · intro hh
    simp [BscExecutor.GetBlockAndTxEvents, hh]
  · intro header hh hq
    simp [BscExecutor.GetBlockAndTxEvents, hh, BscExecutor.GetLogs, BscExecutor.GetSwapStartLogs,
      hq]
  · intro header startEvs hh hs hq
    simp [BscExecutor.GetBlockAndTxEvents, hh, BscExecutor.GetLogs, hs,
      BscExecutor.GetSwapPairCreatedLogs, hq]

/-- Witness of C2: the header fetch succeeds, the swap-start stage has produced
one record, the pair-created query then exceeds its deadline, and the scan
returns that error. -/
theorem C2_fetch_or_query_failure_fails_scan_witness :
    ∃ startEvs,
      (demoExecutor (Except.ok [swapLog])
        (Except.error "context deadline exceeded")).Client.HeaderByNumber 100
          = Except.ok demoHeader ∧
      (demoExecutor (Except.ok [swapLog])
        (Except.error "context deadline exceeded")).GetSwapStartLogs demoHeader
          = Result.ok startEvs ∧
      startEvs.length = 1 ∧
      (demoExecutor (Except.ok [swapLog])
        (Except.error "context deadline exceeded")).Client.FilterLogs
          ((demoExecutor (Except.ok [swapLog])
            (Except.error "context deadline exceeded")).swapPairCreatedQuery demoHeader)
          = Except.error "context deadline exceeded" ∧
      (demoExecutor (Except.ok [swapLog])
        (Except.error "context deadline exceeded")).GetBlockAndTxEvents 100
          = Result.error "context deadline exceeded" :=
  ⟨_, rfl, rfl, rfl, rfl,
    (C2_fetch_or_query_failure_fails_scan
      (demoExecutor (Except.ok [swapLog]) (Except.error "context deadline exceeded")) 100
      "context deadline exceeded").2.2 demoHeader _ rfl rfl rfl⟩

/-- C3 (the code departs from the claim): for every ABI and every log whose
payload unpacks but which has fewer topics than the decoder reads (fewer than 3
for direction-A swap-start and pair-register, fewer than 4 for direction-B
swap-start and pair-created), the decoder returns neither a decode error nor a
record: the out-of-range access to `log.Topics` panics. -/
theorem C3_too_few_topics_abort (abi : ABI) (log : Log) :
    (∀ amount feeAmount,
      abi.UnpackAmounts SwapStartedEventName log.Data = Except.ok (amount, feeAmount) →
      log.Topics.length < 3 → ParseETH2BSCSwapStartEvent abi log = Result.abort) ∧
    (∀ amount feeAmount,
      abi.UnpackAmounts SwapStartedEventName log.Data = Except.ok (amount, feeAmount) →
      log.Topics.length < 4 → ParseBSC2ETHSwapStartEvent abi log = Result.abort) ∧
    (∀ name symbol decimals,
      abi.UnpackToken SwapPairRegisterEventName log.Data = Except.ok (name, symbol, decimals) →
      log.Topics.length < 3 → ParseSwapPairRegisterEvent abi log = Result.abort) ∧
    (∀ name symbol decimals,
      abi.UnpackToken SwapPairCreatedEventName log.Data = Except.ok (name, symbol, decimals) →
      log.Topics.length < 4 → ParseSwapPairCreatedEvent abi log = Result.abort) := by
  refine ⟨?_, ?_, ?_, ?_⟩
  · intro amount feeAmount hu hl
    have h2 : log.Topics[2]? = none := List.getElem?_eq_none (by omega)
    unfold ParseETH2BSCSwapStartEvent
    rw [hu, h2]
    cases log.Topics[1]? <;> rfl
  · intro amount feeAmount hu hl
    have h3 : log.Topics[3]? = none := List.getElem?_eq_none (by omega)
    unfold ParseBSC2ETHSwapStartEvent
    rw [hu, h3]
    cases log.Topics[1]? <;> cases log.Topics[2]? <;> rfl
  · intro name symbol decimals hu hl
    have h2 : log.Topics[2]? = none := List.getElem?_eq_none (by omega)
    unfold ParseSwapPairRegisterEvent
    rw [hu, h2]
    cases log.Topics[1]? <;> rfl
  · intro name symbol decimals hu hl
    have h3 : log.Topics[3]? = none := List.getElem?_eq_none (by omega)
    unfold ParseSwapPairCreatedEvent
    rw [hu, h3]
    cases log.Topics[1]? <;> cases log.Topics[2]? <;> rfl

/-- Witness of C3: one log per decoder, each with an unpacking payload and one
topic slot too few. -/
theorem C3_too_few_topics_abort_witness :
    ParseETH2BSCSwapStartEvent agentAbi shortEthSwapLog = Result.abort ∧
    ParseBSC2ETHSwapStartEvent agentAbi shortSwapLog = Result.abort ∧
    ParseSwapPairRegisterEvent agentAbi shortRegisterLog = Result.abort ∧
    ParseSwapPairCreatedEvent agentAbi shortPairLog = Result.abort :=
  ⟨(C3_too_few_topics_abort agentAbi shortEthSwapLog).1
      1000000000000000000 1000000000000000 rfl (by decide),
    (C3_too_few_topics_abort agentAbi shortSwapLog).2.1
      1000000000000000000 1000000000000000 rfl (by decide),
    (C3_too_few_topics_abort agentAbi shortRegisterLog).2.2.1 "Tether" "USDT" 6 rfl (by decide),
    (C3_too_few_topics_abort agentAbi shortPairLog).2.2.2 "Tether" "USDT" 6 rfl (by decide)⟩

/-- C4 refuted as stated: a log with four topics whose topic 0 is the
pair-created signature hash, not the direction-B swap-start one, and whose
payload unpacks, is decoded to a record by `ParseBSC2ETHSwapStartEvent`. -/
theorem C4_foreign_signature_decodes :
    ∃ ev, ParseBSC2ETHSwapStartEvent agentAbi foreignSignatureLog = Result.ok ev ∧
      foreignSignatureLog.Topics[0]? = some SwapPairCreatedEventHash ∧
      SwapPairCreatedEventHash ≠ BSC2ETHSwapStartedEventHash :=
  ⟨_, rfl, rfl, by decide⟩

/-- C4 as amended: no decoder reads topic 0.  For each of the four decoders the
outcome on a log is the same whatever hash stands in topic 0, and a log with any
hash in topic 0 is decoded to a record whenever its payload unpacks and the
topic slots the decoder reads are present (slots 1 and 2 for direction-A
swap-start and pair-register, slots 1 to 3 for direction-B swap-start and
pair-created); the record holds the fields of those slots and of the payload. -/
theorem C4_decoders_ignore_topic0 (abi : ABI) (log : Log) (sig other t1 t2 t3 : Hash)
    (rest more : List Hash) (amount feeAmount : Int) (name symbol : String)
    (decimals : Fin 256) :
    ParseETH2BSCSwapStartEvent abi { log with Topics := other :: rest }
        = ParseETH2BSCSwapStartEvent abi { log with Topics := sig :: rest } ∧
    ParseBSC2ETHSwapStartEvent abi { log with Topics := other :: rest }
        = ParseBSC2ETHSwapStartEvent abi { log with Topics := sig :: rest } ∧
    ParseSwapPairRegisterEvent abi { log with Topics := other :: rest }
        = ParseSwapPairRegisterEvent abi { log with Topics := sig :: rest } ∧
    ParseSwapPairCreatedEvent abi { log with Topics := other :: rest }
        = ParseSwapPairCreatedEvent abi { log with Topics := sig :: rest } ∧
    (abi.UnpackAmounts SwapStartedEventName log.Data = Except.ok (amount, feeAmount) →
      ParseETH2BSCSwapStartEvent abi { log with Topics := other :: t1 :: t2 :: more }
        = Result.ok
            { ERC20Addr := BytesToAddress t1.Bytes
              FromAddr := BytesToAddress t2.Bytes
              Amount := amount
              FeeAmount := feeAmount }) ∧
    (abi.UnpackAmounts SwapStartedEventName log.Data = Except.ok (amount, feeAmount) →
      ParseBSC2ETHSwapStartEvent abi { log with Topics := other :: t1 :: t2 :: t3 :: more }
        = Result.ok
            { BEP20Addr := BytesToAddress t1.Bytes
              ERC20Addr := BytesToAddress t2.Bytes
              FromAddr := BytesToAddress t3.Bytes
              Amount := amount
              FeeAmount := feeAmount }) ∧
    (abi.UnpackToken SwapPairRegisterEventName log.Data = Except.ok (name, symbol, decimals) →
      ParseSwapPairRegisterEvent abi { log with Topics := other :: t1 :: t2 :: more }
        = Result.ok
            { Sponsor := BytesToAddress t1.Bytes
              ContractAddr := BytesToAddress t2.Bytes
              Name := name
              Symbol := symbol
              Decimals := decimals }) ∧
    (abi.UnpackToken SwapPairCreatedEventName log.Data = Except.ok (name, symbol, decimals) →
      ParseSwapPairCreatedEvent abi { log with Topics := other :: t1 :: t2 :: t3 :: more }
        = Result.ok
            { EthRegisterTxHash := t1.Bytes
              BEP20Addr := BytesToAddress t2.Bytes
              ERC20Addr := BytesToAddress t3.Bytes
              Name := name
              Symbol := symbol
              Decimals := decimals }) := by
  refine ⟨?_, ?_, ?_, ?_, ?_, ?_, ?_, ?_⟩
  · simp only [ParseETH2BSCSwapStartEvent, List.getElem?_cons_succ]
  · simp only [ParseBSC2ETHSwapStartEvent, List.getElem?_cons_succ]
  · simp only [ParseSwapPairRegisterEvent, List.getElem?_cons_succ]
  · simp only [ParseSwapPairCreatedEvent, List.getElem?_cons_succ]
  · intro hu
    simp [ParseETH2BSCSwapStartEvent, hu]
  · intro hu
    simp [ParseBSC2ETHSwapStartEvent, hu]
  · intro hu
    simp [ParseSwapPairRegisterEvent, hu]
  · intro hu
    simp [ParseSwapPairCreatedEvent, hu]

/-- Witness of C4: each decoder is handed a log whose topic 0 is the signature
hash of another event, with an unpacking payload and all topic slots, and
returns the record of those slots and that payload. -/
theorem C4_decoders_ignore_topic0_witness :
    ParseETH2BSCSwapStartEvent agentAbi
        { mkLog [] swapData with
          Topics := [SwapPairRegisterEventHash, addressTopic 0xe2, addressTopic 0xf3] }
      = Result.ok
          { ERC20Addr := BytesToAddress (addressTopic 0xe2).Bytes
            FromAddr := BytesToAddress (addressTopic 0xf3).Bytes
            Amount := 1000000000000000000
            FeeAmount := 1000000000000000 } ∧
    ParseBSC2ETHSwapStartEvent agentAbi
        { mkLog [] swapData with
          Topics := [SwapPairCreatedEventHash, addressTopic 0xb1, addressTopic 0xe2,
            addressTopic 0xf3] }
      = Result.ok
          { BEP20Addr := BytesToAddress (addressTopic 0xb1).Bytes
            ERC20Addr := BytesToAddress (addressTopic 0xe2).Bytes
            FromAddr := BytesToAddress (addressTopic 0xf3).Bytes
            Amount := 1000000000000000000
            FeeAmount := 1000000000000000 } ∧
    ParseSwapPairRegisterEvent agentAbi
        { mkLog [] tokenData with
          Topics := [ETH2BSCSwapStartedEventHash, addressTopic 0xc4, addressTopic 0xe2] }
      = Result.ok
          { Sponsor := BytesToAddress (addressTopic 0xc4).Bytes
            ContractAddr := BytesToAddress (addressTopic 0xe2).Bytes
            Name := "Tether"
            Symbol := "USDT"
            Decimals := 6 } ∧
    ParseSwapPairCreatedEvent agentAbi
        { mkLog [] tokenData with
          Topics := [BSC2ETHSwapStartedEventHash, constHash 0x99, addressTopic 0xb1,
            addressTopic 0xe2] }
      = Result.ok
          { EthRegisterTxHash := (constHash 0x99).Bytes
            BEP20Addr := BytesToAddress (addressTopic 0xb1).Bytes
            ERC20Addr := BytesToAddress (addressTopic 0xe2).Bytes
            Name := "Tether"
            Symbol := "USDT"
            Decimals := 6 } :=
  ⟨(C4_decoders_ignore_topic0 agentAbi (mkLog [] swapData) BSC2ETHSwapStartedEventHash
      SwapPairRegisterEventHash (addressTopic 0xe2) (addressTopic 0xf3) (addressTopic 0xf3)
      [] [] 1000000000000000000 1000000000000000 "Tether" "USDT" 6).2.2.2.2.1 rfl,
    (C4_decoders_ignore_topic0 agentAbi (mkLog [] swapData) BSC2ETHSwapStartedEventHash
      SwapPairCreatedEventHash (addressTopic 0xb1) (addressTopic 0xe2) (addressTopic 0xf3)
      [] [] 1000000000000000000 1000000000000000 "Tether" "USDT" 6).2.2.2.2.2.1 rfl,
    (C4_decoders_ignore_topic0 agentAbi (mkLog [] tokenData) BSC2ETHSwapStartedEventHash
      ETH2BSCSwapStartedEventHash (addressTopic 0xc4) (addressTopic 0xe2) (addressTopic 0xe2)
      [] [] 1000000000000000000 1000000000000000 "Tether" "USDT" 6).2.2.2.2.2.2.1 rfl,
    (C4_decoders_ignore_topic0 agentAbi (mkLog [] tokenData) SwapPairCreatedEventHash
      BSC2ETHSwapStartedEventHash (constHash 0x99) (addressTopic 0xb1) (addressTopic 0xe2)
      [] [] 1000000000000000000 1000000000000000 "Tether" "USDT" 6).2.2.2.2.2.2.2 rfl⟩

/-- C5 refuted as stated: for a well-formed direction-B swap-start log reported
in block 2^63 the emitted record's `Height` is not the log's block number: the
conversion `int64(log.BlockNumber)` wraps. -/
theorem C5_height_wraps_at_high_block :
    ∃ r, (demoExecutor (Except.ok [highBlockLog]) (Except.ok [])).GetSwapStartLogs demoHeader
        = Result.ok [EventLog.swapStart r] ∧
      r.Height ≠ (highBlockLog.BlockNumber : Int) :=
  ⟨_, rfl, by decide⟩

/-- C5 as amended: for a direction-B swap-start log with topics
`[signatureHash, bep20Addr, erc20Addr, fromAddr]` whose payload unpacks to
`(amount, feeAmount)`, the record the executor emits has `Amount` and `FeeAmount`
equal to the decimal strings of `amount` and `feeAmount`, `FromAddress` equal to
the address form of topic 3, `Chain` equal to the executor's chain, `TxHash` and
`BlockHash` equal to the hex forms of the log's transaction and block hash, and
`Height` equal to the `int64` conversion of the log's block number, which is the
block number itself when that is below 2^63. -/
theorem C5_swap_start_record_fields (e : BscExecutor) (header : Header) (log : Log)
    (sig bep20 erc20 sender : Hash) (amount feeAmount : Int)
    (hq : e.Client.FilterLogs (e.swapStartQuery header) = Except.ok [log])
    (ht : log.Topics = [sig, bep20, erc20, sender])
    (hu : e.SwapAgentAbi.UnpackAmounts SwapStartedEventName log.Data
      = Except.ok (amount, feeAmount)) :
    ∃ r, e.GetSwapStartLogs header = Result.ok [EventLog.swapStart r] ∧
      r.Amount = bigIntString amount ∧ r.FeeAmount = bigIntString feeAmount ∧
      r.FromAddress = (BytesToAddress sender.Bytes).String ∧
      r.Chain = e.Chain ∧
      r.TxHash = log.TxHash.String ∧ r.BlockHash = log.BlockHash.Hex ∧
      r.Height = toInt64 log.BlockNumber ∧
      (log.BlockNumber < 2 ^ 63 → r.Height = (log.BlockNumber : Int)) := by
  refine ⟨{ ({ BEP20Addr := BytesToAddress bep20.Bytes
               ERC20Addr := BytesToAddress erc20.Bytes
               FromAddr := BytesToAddress sender.Bytes
               Amount := amount
               FeeAmount := feeAmount } : BSC2ETHSwapStartedEvent).ToSwapStartTxLog log with
            Chain := e.Chain }, ?_, rfl, rfl, rfl, rfl, rfl, rfl, rfl, ?_⟩
  · simp [BscExecutor.GetSwapStartLogs, hq, BscExecutor.swapStartLoop,
      ParseBSC2ETHSwapStartEvent, hu, ht]
  · intro hlt
    exact toInt64_of_lt _ hlt

/-- Witness of C5: amount 10^18 and fee 10^15 in block 100. -/
theorem C5_swap_start_record_fields_witness :
    ∃ r, (demoExecutor (Except.ok [swapLog]) (Except.ok [])).GetSwapStartLogs demoHeader
        = Result.ok [EventLog.swapStart r] ∧
      r.Amount = "1000000000000000000" ∧ r.FeeAmount = "1000000000000000" ∧
      r.FromAddress = (BytesToAddress (addressTopic 0xf3).Bytes).String ∧
      r.Chain = "BSC" ∧
      r.TxHash = "0x7777777777777777777777777777777777777777777777777777777777777777" ∧
      r.BlockHash = "0x5555555555555555555555555555555555555555555555555555555555555555" ∧
      r.Height = 100 := by
  obtain ⟨r, h0, h1, h2, h3, h4, h5, h6, _, h8⟩ :=
    C5_swap_start_record_fields (demoExecutor (Except.ok [swapLog]) (Except.ok [])) demoHeader
      swapLog BSC2ETHSwapStartedEventHash (addressTopic 0xb1) (addressTopic 0xe2)
      (addressTopic 0xf3) 1000000000000000000 1000000000000000 rfl rfl rfl
  exact ⟨r, h0, h1.trans rfl, h2.trans rfl, h3, h4, h5.trans rfl, h6.trans rfl,
    (h8 (by decide)).trans rfl⟩

/-- C6 refuted as stated: for a direction-B swap-start log that decodes, with
different addresses in topic 1 and topic 2, the record's `TokenAddr` is not the
address form of topic 2. -/
theorem C6_token_addr_is_not_topic2 :
    ∃ ev t2, ParseBSC2ETHSwapStartEvent agentAbi swapLog = Result.ok ev ∧
      swapLog.Topics[2]? = some t2 ∧
      (ev.ToSwapStartTxLog swapLog).TokenAddr ≠ (BytesToAddress t2.Bytes).String :=
  ⟨_, _, rfl, rfl, by decide⟩

/-- C6 as amended: for every direction-B swap-start log that decodes, the
record's `TokenAddr` is the address form of topic 1 (the event's `BEP20Addr`);
the address of topic 2 is decoded into the event's `ERC20Addr` and is not copied
into the record: the record is the same whatever address `ERC20Addr` holds. -/
theorem C6_token_addr_is_topic1 (abi : ABI) (log : Log) (ev : BSC2ETHSwapStartedEvent)
    (h : ParseBSC2ETHSwapStartEvent abi log = Result.ok ev) :
    ∃ t1 t2, log.Topics[1]? = some t1 ∧ log.Topics[2]? = some t2 ∧
      (ev.ToSwapStartTxLog log).TokenAddr = (BytesToAddress t1.Bytes).String ∧
      ev.BEP20Addr = BytesToAddress t1.Bytes ∧
      ev.ERC20Addr = BytesToAddress t2.Bytes ∧
      ∀ a : Address,
        ({ ev with ERC20Addr := a } : BSC2ETHSwapStartedEvent).ToSwapStartTxLog log
          = ev.ToSwapStartTxLog log := by
  unfold ParseBSC2ETHSwapStartEvent at h
  cases hu : abi.UnpackAmounts SwapStartedEventName log.Data with
  | error err => rw [hu] at h; cases h
  | ok p =>
    rw [hu] at h
    simp only at h
    cases h1 : log.Topics[1]? with
    | none => rw [h1] at h; cases h
    | some t1 =>
      rw [h1] at h
      cases h2 : log.Topics[2]? with
      | none => rw [h2] at h; cases h
      | some t2 =>
        rw [h2] at h
        cases h3 : log.Topics[3]? with
        | none => rw [h3] at h; cases h
        | some t3 =>
          rw [h3] at h
          simp only [Result.ok.injEq] at h
          subst h
          exact ⟨t1, t2, rfl, rfl, rfl, rfl, rfl, fun _ => rfl⟩

/-- Witness of C6: the well-formed log `swapLog`. -/
theorem C6_token_addr_is_topic1_witness :
    ∃ ev, ParseBSC2ETHSwapStartEvent agentAbi swapLog = Result.ok ev ∧
      ∃ t1 t2, swapLog.Topics[1]? = some t1 ∧ swapLog.Topics[2]? = some t2 ∧
        (ev.ToSwapStartTxLog swapLog).TokenAddr = (BytesToAddress t1.Bytes).String ∧
        ev.BEP20Addr = BytesToAddress t1.Bytes ∧
        ev.ERC20Addr = BytesToAddress t2.Bytes ∧
        ∀ a : Address,
          ({ ev with ERC20Addr := a } : BSC2ETHSwapStartedEvent).ToSwapStartTxLog swapLog
            = ev.ToSwapStartTxLog swapLog :=
  ⟨_, rfl, C6_token_addr_is_topic1 agentAbi swapLog _ rfl⟩

/-- C7: for a pair-created log with four topics whose payload unpacks to
`(name, symbol, decimals)`, the record the executor emits has
`SwapPairRegisterTxHash` equal to the 32 raw bytes of topic 1 (not cut to 20
bytes, not hex-encoded), `BEP20Addr` and `ERC20Addr` equal to the address forms
of topic 2 and topic 3, `SwapPairCreatTxHash` equal to the hex form of the log's
transaction hash, and the payload's name, symbol and decimals. -/
theorem C7_pair_created_record_fields (e : BscExecutor) (header : Header) (log : Log)
    (sig registerTx bep20 erc20 : Hash) (name symbol : String) (decimals : Fin 256)
    (hq : e.Client.FilterLogs (e.swapPairCreatedQuery header) = Except.ok [log])
    (ht : log.Topics = [sig, registerTx, bep20, erc20])
    (hu : e.SwapAgentAbi.UnpackToken SwapPairCreatedEventName log.Data
      = Except.ok (name, symbol, decimals)) :
    ∃ r, e.GetSwapPairCreatedLogs header = Result.ok [EventLog.pairCreated r] ∧
      r.SwapPairRegisterTxHash = registerTx.bytes ∧
      r.SwapPairRegisterTxHash.length = 32 ∧
      r.BEP20Addr = (BytesToAddress bep20.Bytes).String ∧
      r.ERC20Addr = (BytesToAddress erc20.Bytes).String ∧
      r.SwapPairCreatTxHash = log.TxHash.String ∧
      r.Name = name ∧ r.Symbol = symbol ∧ r.Decimals = (decimals.val : Int) := by
  refine ⟨{ ({ EthRegisterTxHash := registerTx.Bytes
               BEP20Addr := BytesToAddress bep20.Bytes
               ERC20Addr := BytesToAddress erc20.Bytes
               Name := name
               Symbol := symbol
               Decimals := decimals } : SwapPairCreatedEvent).ToSwapPairRegisterLog log with
            Chain := e.Chain }, ?_, rfl, registerTx.size, rfl, rfl, rfl, rfl, rfl, rfl⟩
  simp [BscExecutor.GetSwapPairCreatedLogs, hq, BscExecutor.swapPairCreatedLoop,
    ParseSwapPairCreatedEvent, hu, ht]

/-- Witness of C7: the pair-created log `pairLog`, token `Tether`/`USDT` with 6
decimals, register reference of 32 bytes `0x99`. -/
theorem C7_pair_created_record_fields_witness :
    ∃ r, (demoExecutor (Except.ok []) (Except.ok [pairLog])).GetSwapPairCreatedLogs demoHeader
        = Result.ok [EventLog.pairCreated r] ∧
      r.SwapPairRegisterTxHash = List.replicate 32 0x99 ∧
      r.SwapPairRegisterTxHash.length = 32 ∧
      r.BEP20Addr = (BytesToAddress (addressTopic 0xb1).Bytes).String ∧
      r.ERC20Addr = (BytesToAddress (addressTopic 0xe2).Bytes).String ∧
      r.SwapPairCreatTxHash
        = "0x7777777777777777777777777777777777777777777777777777777777777777" ∧
      r.Name = "Tether" ∧ r.Symbol = "USDT" ∧ r.Decimals = 6 := by
  obtain ⟨r, h0, h1, h2, h3, h4, h5, h6, h7, h8⟩ :=
    C7_pair_created_record_fields (demoExecutor (Except.ok []) (Except.ok [pairLog])) demoHeader
      pairLog SwapPairCreatedEventHash (constHash 0x99) (addressTopic 0xb1) (addressTopic 0xe2)
      "Tether" "USDT" 6 rfl rfl rfl
  exact ⟨r, h0, h1.trans rfl, h2, h3, h4, h5.trans rfl, h6, h7, h8.trans rfl⟩

/-- C8 (the code departs from the claim): the header fetch and both log queries
succeed, the pair-created query returns a log with three topics whose payload
unpacks, and `GetBlockAndTxEvents` returns no result at all: reading
`log.Topics[3]` in `ParseSwapPairCreatedEvent` panics and the panic unwinds the
scan. -/
theorem C8_no_result_on_short_pair_log :
    (demoExecutor (Except.ok [swapLog]) (Except.ok [shortPairLog])).Client.HeaderByNumber 100
        = Except.ok demoHeader ∧
      (demoExecutor (Except.ok [swapLog]) (Except.ok [shortPairLog])).Client.FilterLogs
          ((demoExecutor (Except.ok [swapLog]) (Except.ok [shortPairLog])).swapStartQuery
            demoHeader) = Except.ok [swapLog] ∧
      (demoExecutor (Except.ok [swapLog]) (Except.ok [shortPairLog])).Client.FilterLogs
          ((demoExecutor (Except.ok [swapLog]) (Except.ok [shortPairLog])).swapPairCreatedQuery
            demoHeader) = Except.ok [shortPairLog] ∧
      (demoExecutor (Except.ok [swapLog]) (Except.ok [shortPairLog])).GetBlockAndTxEvents 100
        = Result.abort :=
  ⟨rfl, rfl, rfl, rfl⟩

/-- C9: in every result `GetBlockAndTxEvents` returns, the event sequence is the
records of the logs the swap-start query returned, in that order, followed by
the records of the logs the pair-created query returned, in that order; every
element of the first part is a swap-start record and every element of the second
part a pair-created record. -/
theorem C9_swap_start_before_pair_created (e : BscExecutor) (height : Int)
    (r : BlockAndEventLogs) (h : e.GetBlockAndTxEvents height = Result.ok r) :
    ∃ header startLogs pairLogs,
      e.Client.HeaderByNumber height = Except.ok header ∧
      e.Client.FilterLogs (e.swapStartQuery header) = Except.ok startLogs ∧
      e.Client.FilterLogs (e.swapPairCreatedQuery header) = Except.ok pairLogs ∧
      r.Events = startLogs.filterMap e.swapStartRecord
        ++ pairLogs.filterMap e.swapPairCreatedRecord ∧
      (∀ x ∈ startLogs.filterMap e.swapStartRecord, ∃ s, x = EventLog.swapStart s) ∧
      (∀ x ∈ pairLogs.filterMap e.swapPairCreatedRecord, ∃ p, x = EventLog.pairCreated p) := by
  obtain ⟨header, evs, hh, hl, hr⟩ := GetBlockAndTxEvents_ok_inv e height r h
  obtain ⟨startEvs, pairEvs, hs, hp, hev⟩ := GetLogs_ok_inv e header evs hl
  obtain ⟨startLogs, hsq, hsl⟩ := GetSwapStartLogs_ok_inv e header startEvs hs
  obtain ⟨pairLogs, hpq, hpl⟩ := GetSwapPairCreatedLogs_ok_inv e header pairEvs hp
  have h1 := swapStartLoop_ok e startLogs [] startEvs hsl
  have h2 := swapPairCreatedLoop_ok e pairLogs [] pairEvs hpl
  rw [List.nil_append] at h1 h2
  refine ⟨header, startLogs, pairLogs, hh, hsq, hpq, ?_, ?_, ?_⟩
  · rw [hr, hev, h1, h2]
  · intro x hx
    obtain ⟨log, _, hlog⟩ := List.mem_filterMap.mp hx
    unfold BscExecutor.swapStartRecord at hlog
    split at hlog
    · exact ⟨_, (Option.some.inj hlog).symm⟩
    · cases hlog
  · intro x hx
    obtain ⟨log, _, hlog⟩ := List.mem_filterMap.mp hx
    unfold BscExecutor.swapPairCreatedRecord at hlog
    split at hlog
    · exact ⟨_, (Option.some.inj hlog).symm⟩
    · cases hlog

/-- Witness of C9: the swap-start query returns a log that decodes, one whose
payload does not unpack, and a second that decodes; the pair-created query
returns one log; the events are the two swap-start records, then the
pair-created record. -/
theorem C9_swap_start_before_pair_created_witness :
    ∃ r, (demoExecutor (Except.ok [swapLog, mkLog [] [], highBlockLog])
          (Except.ok [pairLog])).GetBlockAndTxEvents 100 = Result.ok r ∧
      r.Events.length = 3 ∧
      ∃ header startLogs pairLogs,
        (demoExecutor (Except.ok [swapLog, mkLog [] [], highBlockLog])
          (Except.ok [pairLog])).Client.HeaderByNumber 100 = Except.ok header ∧
        (demoExecutor (Except.ok [swapLog, mkLog [] [], highBlockLog])
          (Except.ok [pairLog])).Client.FilterLogs
            ((demoExecutor (Except.ok [swapLog, mkLog [] [], highBlockLog])
              (Except.ok [pairLog])).swapStartQuery header) = Except.ok startLogs ∧
        (demoExecutor (Except.ok [swapLog, mkLog [] [], highBlockLog])
          (Except.ok [pairLog])).Client.FilterLogs
            ((demoExecutor (Except.ok [swapLog, mkLog [] [], highBlockLog])
              (Except.ok [pairLog])).swapPairCreatedQuery header) = Except.ok pairLogs ∧
        r.Events = startLogs.filterMap
            (demoExecutor (Except.ok [swapLog, mkLog [] [], highBlockLog])
              (Except.ok [pairLog])).swapStartRecord
          ++ pairLogs.filterMap
            (demoExecutor (Except.ok [swapLog, mkLog [] [], highBlockLog])
              (Except.ok [pairLog])).swapPairCreatedRecord ∧
        (∀ x ∈ startLogs.filterMap
            (demoExecutor (Except.ok [swapLog, mkLog [] [], highBlockLog])
              (Except.ok [pairLog])).swapStartRecord, ∃ s, x = EventLog.swapStart s) ∧
        (∀ x ∈ pairLogs.filterMap
            (demoExecutor (Except.ok [swapLog, mkLog [] [], highBlockLog])
              (Except.ok [pairLog])).swapPairCreatedRecord, ∃ p, x = EventLog.pairCreated p) :=
  ⟨_, rfl, rfl,
    C9_swap_start_before_pair_created
      (demoExecutor (Except.ok [swapLog, mkLog [] [], highBlockLog]) (Except.ok [pairLog]))
      100 _ rfl⟩

/-- C10: for every non-negative integer amount and fee, of any size, the decimal
strings that both `ToSwapStartTxLog` mappings store in `Amount` and `FeeAmount`
read back as exactly the original integers. -/
theorem C10_amount_string_round_trip (amount feeAmount : Nat)
    (evA : ETH2BSCSwapStartedEvent) (evB : BSC2ETHSwapStartedEvent) (log : Log) :
    parseBigInt (({ evA with Amount := (amount : Int), FeeAmount := (feeAmount : Int) } :
        ETH2BSCSwapStartedEvent).ToSwapStartTxLog log).Amount = some (amount : Int) ∧
    parseBigInt (({ evA with Amount := (amount : Int), FeeAmount := (feeAmount : Int) } :
        ETH2BSCSwapStartedEvent).ToSwapStartTxLog log).FeeAmount = some (feeAmount : Int) ∧
    parseBigInt (({ evB with Amount := (amount : Int), FeeAmount := (feeAmount : Int) } :
        BSC2ETHSwapStartedEvent).ToSwapStartTxLog log).Amount = some (amount : Int) ∧
    parseBigInt (({ evB with Amount := (amount : Int), FeeAmount := (feeAmount : Int) } :
        BSC2ETHSwapStartedEvent).ToSwapStartTxLog log).FeeAmount = some (feeAmount : Int) :=
  ⟨parseBigInt_repr amount, parseBigInt_repr feeAmount, parseBigInt_repr amount,
    parseBigInt_repr feeAmount⟩

end BscEthSwap
